import Mathlib

/-!
Verification of the n8n intelligence-hub node adapters (Terminal Agent,
LM Studio Agent, MCP Connector, Web Browse Agent, Hub Monitor) against
their natural-language specification.

The adapters are event-driven JavaScript wrapped in Promises.  We embed
them shallowly: each Promise-based operation becomes a fold of a step
function over an explicit list of external events (data chunks, close,
error, timer firing), with the single-settlement discipline of Promises
(the first resolve or reject wins, later attempts are ignored) modelled
by the `settle` combinator on `Option (Settled A)`.  External library
calls that the adapters treat as opaque (the regular-expression test,
JSON parsing) are passed in as function parameters.
-/

namespace IntelligenceHub

/-! ### JavaScript string primitives

The adapters use the JS string methods `trim`, `split`, `join` and
`replace`.  We embed them directly over the character list of a
`String`, by structural recursion, so that every definition in this
file evaluates inside the kernel. -/

/-- JS `String.prototype.trim`: strip whitespace from both ends. -/
def jsTrim (s : String) : String :=
  String.mk (((s.data.dropWhile Char.isWhitespace).reverse.dropWhile Char.isWhitespace).reverse)

/-- Split a character list at every character satisfying `p`, keeping
empty segments, as JS `split` does with a single-character or
character-class separator. -/
def splitCharsAux (p : Char → Bool) : List Char → List (List Char)
  | [] => [[]]
  | c :: rest =>
      match splitCharsAux p rest with
      | [] => [[c]]
      | g :: gs => if p c then [] :: g :: gs else (c :: g) :: gs

/-- JS `String.prototype.split` at characters satisfying `p`. -/
def splitOnPred (p : Char → Bool) (s : String) : List String :=
  (splitCharsAux p s.data).map String.mk

/-- JS `Array.prototype.join` with a separator. -/
def joinWith (sep : String) : List String → String
  | [] => ""
  | [x] => x
  | x :: y :: xs => x ++ sep ++ joinWith sep (y :: xs)

/-- JS `replace` with a global single-character pattern and empty
replacement: drop every occurrence of the character. -/
def dropChar (c : Char) (s : String) : String :=
  String.mk (s.data.filter (fun d => d ≠ c))

/-- Outcome of a settled JavaScript Promise: resolve carried a value,
reject carried an error message (all operation errors in this codebase
are `NodeOperationError`s identified by their message string). -/
inductive Settled (A : Type) where
  | resolved (v : A)
  | rejected (msg : String)
deriving Repr, DecidableEq

/-- First-settlement-wins discipline of a JS Promise: resolving or
rejecting an already settled promise is a no-op. -/
def settle {A : Type} (s : Option (Settled A)) (o : Settled A) : Option (Settled A) :=
  match s with
  | some x => some x
  | none => some o

/-- Result record produced by both Terminal Agent command paths
(`executeLocalCommand` close handler and `executeRemoteCommand` stream
close handler). -/
structure CommandResult where
  exitCode : Int
  stdout : String
  stderr : String
  success : Bool
deriving Repr, DecidableEq

/-! ### Terminal Agent, local path (`executeLocalCommand`) -/

/-- External events observable by the `spawn` child process handlers in
`executeLocalCommand`: stdout data, stderr data, process close with an
exit code, and a process-level error. -/
inductive LocalEvent where
  | out (s : String)
  | errOut (s : String)
  | close (code : Int)
  | procError (msg : String)
deriving Repr, DecidableEq

/-- State of one `executeLocalCommand` invocation: the accumulated
stdout and stderr buffers and the promise settlement. -/
structure LocalState where
  stdout : String
  stderr : String
  settled : Option (Settled CommandResult)
deriving Repr, DecidableEq

/-- One event handler dispatch of `executeLocalCommand`, transcribed
from the source: data events append to the buffers; `close` resolves
with exit code, trimmed buffers and `success = (code == 0)`;
`error` rejects with a message naming the cause. -/
def localStep (st : LocalState) : LocalEvent → LocalState
  | .out d => { st with stdout := st.stdout ++ d }
  | .errOut d => { st with stderr := st.stderr ++ d }
  | .close code =>
      { st with settled := settle st.settled (.resolved
          { exitCode := code
            stdout := jsTrim st.stdout
            stderr := jsTrim st.stderr
            success := code == 0 }) }
  | .procError m =>
      { st with settled := settle st.settled (.rejected ("Command execution failed: " ++ m)) }

/-- Initial state of a local command invocation. -/
def localInit : LocalState := { stdout := "", stderr := "", settled := none }

/-- Run of `executeLocalCommand` on an event trace. -/
def localRun (events : List LocalEvent) : LocalState :=
  events.foldl localStep localInit

/-! ### Terminal Agent, remote path (`executeRemoteCommand`) -/

/-- Events observable by one `executeRemoteCommand` invocation: the
`setTimeout` timer firing, the SSH client `ready` and `error` events,
the `exec` callback (carrying an error or a stream), and the stream
data / stderr / close events. -/
inductive SshEvent where
  | timerFire
  | ready
  | connError (msg : String)
  | execCallback (err : Option String)
  | streamOut (s : String)
  | streamErr (s : String)
  | streamClose (code : Int)
deriving Repr, DecidableEq

/-- State of one `executeRemoteCommand` invocation: whether the timeout
timer is still armed, the accumulated stream buffers, and the promise
settlement. -/
structure SshState where
  timerActive : Bool
  stdout : String
  stderr : String
  settled : Option (Settled CommandResult)
deriving Repr, DecidableEq

/-- The timeout rejection message of `executeRemoteCommand`. -/
def sshTimeoutMsg (timeout : Nat) : String :=
  "SSH connection timeout after " ++ toString timeout ++ " seconds"

/-- One event handler dispatch of `executeRemoteCommand`, transcribed
from the source.  Crucially, the `ready` handler calls
`clearTimeout(timeoutId)` before issuing `conn.exec`, so after `ready`
the timer is disarmed and only stream events can settle the promise. -/
def sshStep (timeout : Nat) (st : SshState) : SshEvent → SshState
  | .timerFire =>
      if st.timerActive then
        { st with timerActive := false
                  settled := settle st.settled (.rejected (sshTimeoutMsg timeout)) }
      else st
  | .ready => { st with timerActive := false }
  | .connError m =>
      { st with timerActive := false
                settled := settle st.settled (.rejected ("SSH connection failed: " ++ m)) }
  | .execCallback (some e) =>
      { st with settled := settle st.settled (.rejected ("SSH exec failed: " ++ e)) }
  | .execCallback none => st
  | .streamOut d => { st with stdout := st.stdout ++ d }
  | .streamErr d => { st with stderr := st.stderr ++ d }
  | .streamClose code =>
      { st with settled := settle st.settled (.resolved
          { exitCode := code
            stdout := jsTrim st.stdout
            stderr := jsTrim st.stderr
            success := code == 0 }) }

/-- Initial state of a remote command invocation: the timer is armed by
`setTimeout` before any SSH event can arrive. -/
def sshInit : SshState := { timerActive := true, stdout := "", stderr := "", settled := none }

/-- Run of `executeRemoteCommand` on an event trace. -/
def sshRun (timeout : Nat) (events : List SshEvent) : SshState :=
  events.foldl (sshStep timeout) sshInit

/-! ### MCP Connector (`buildMCPMessage`, WebSocket and HTTP paths) -/

/-- Parameter payload of an MCP JSON-RPC message, one constructor per
`buildMCPMessage` branch.  `empty` is the base-message `params: {}`,
`initializeParams` the fixed initialize capability payload; for
`tools/call` the parsed tool-arguments JSON is carried abstractly as
the string that `JSON.parse` accepted. -/
inductive MCPParams where
  | empty
  | initializeParams
  | toolCall (name : String) (args : String)
  | resourceRead (uri : String)
deriving Repr, DecidableEq

/-- A message produced by `buildMCPMessage`: either a JSON-RPC 2.0
envelope built from the base message, or (for the `sendMessage`
operation) the custom JSON message parsed wholesale. -/
inductive MCPMessage where
  | rpc (jsonrpc : String) (id : String) (method : String) (params : MCPParams)
  | custom (v : String)
deriving Repr, DecidableEq

/-- `buildMCPMessage`, transcribed from the source.  `parse` stands for
the external `JSON.parse`, returning the parsed value or the raised
error message; `rid` is the random base-message id.  `callTool` and
`sendMessage` propagate a parse failure as a thrown error; an unknown
operation throws `Unknown operation`. -/
def buildMCPMessage (parse : String → Except String String) (rid : String)
    (operation toolName toolArguments resourceUri customMessage : String) :
    Except String MCPMessage :=
  match operation with
  | "initialize" => .ok (.rpc "2.0" rid "initialize" .initializeParams)
  | "listTools" => .ok (.rpc "2.0" rid "tools/list" .empty)
  | "callTool" =>
      (parse toolArguments).map (fun v => .rpc "2.0" rid "tools/call" (.toolCall toolName v))
  | "listResources" => .ok (.rpc "2.0" rid "resources/list" .empty)
  | "readResource" => .ok (.rpc "2.0" rid "resources/read" (.resourceRead resourceUri))
  | "sendMessage" => (parse customMessage).map .custom
  | _ => .error ("Unknown operation: " ++ operation)

/-- Result shape resolved by the MCP Connector transport paths:
`success: true` plus the (abstractly carried) response value. -/
structure MCPOpResult where
  success : Bool
  response : String
deriving Repr, DecidableEq

/-- Events observable by one `executeWebSocketOperation` invocation:
the timer firing, the socket opening, an incoming message, a socket
error, and the socket closing. -/
inductive WsEvent where
  | timerFire
  | opened
  | message (data : String)
  | wsError (msg : String)
  | closeEvt
deriving Repr, DecidableEq

/-- State of one `executeWebSocketOperation` invocation: whether the
timer is still armed, the `responseReceived` flag from the source, and
the promise settlement. -/
structure WsState where
  timerActive : Bool
  responseReceived : Bool
  settled : Option (Settled MCPOpResult)
deriving Repr, DecidableEq

/-- The timeout rejection message of `executeWebSocketOperation`. -/
def wsTimeoutMsg (timeout : Nat) : String :=
  "WebSocket operation timeout after " ++ toString timeout ++ " seconds"

/-- The rejection message of the WebSocket close handler when the
connection closes before any message was received. -/
def wsCloseMsg : String := "WebSocket connection closed unexpectedly"

/-- One event handler dispatch of `executeWebSocketOperation`,
transcribed from the source.  `build` is the outcome of
`buildMCPMessage` (evaluated in the `open` handler, whose try/catch
wraps a thrown error as `Failed to send message`); `parse` stands for
`JSON.parse` applied to incoming data.  The `message` and `error`
handlers set `responseReceived` and clear the timer; the `close`
handler rejects only when no message was received. -/
def wsStep (timeout : Nat) (build : Except String String)
    (parse : String → Except String String) (st : WsState) : WsEvent → WsState
  | .timerFire =>
      if st.timerActive then
        { st with timerActive := false
                  settled := if st.responseReceived then st.settled
                             else settle st.settled (.rejected (wsTimeoutMsg timeout)) }
      else st
  | .opened =>
      match build with
      | .error e =>
          { st with timerActive := false
                    settled := settle st.settled (.rejected ("Failed to send message: " ++ e)) }
      | .ok _ => st
  | .message d =>
      match parse d with
      | .ok v =>
          { st with responseReceived := true
                    timerActive := false
                    settled := settle st.settled (.resolved { success := true, response := v }) }
      | .error e =>
          { st with responseReceived := true
                    timerActive := false
                    settled := settle st.settled (.rejected ("Failed to parse response: " ++ e)) }
  | .wsError m =>
      { st with responseReceived := true
                timerActive := false
                settled := settle st.settled (.rejected ("WebSocket error: " ++ m)) }
  | .closeEvt =>
      if st.responseReceived then st
      else
        { st with timerActive := false
                  settled := settle st.settled (.rejected wsCloseMsg) }

/-- Initial state of a WebSocket operation: timer armed, no response
received, promise pending. -/
def wsInit : WsState := { timerActive := true, responseReceived := false, settled := none }

/-- Run of `executeWebSocketOperation` on an event trace. -/
def wsRun (timeout : Nat) (build : Except String String)
    (parse : String → Except String String) (events : List WsEvent) : WsState :=
  events.foldl (wsStep timeout build parse) wsInit

/-- `executeHttpOperation`, transcribed from the source: it builds the
MCP message (outside the try block, so a build failure propagates) and
then, with the real request commented out, returns the fixed
placeholder success response.  The second component records the
network requests performed, which is always the empty list. -/
def executeHttpOperation (parse : String → Except String String) (rid : String)
    (serverUrl operation toolName toolArguments resourceUri customMessage : String) :
    Except String MCPOpResult × List String :=
  match buildMCPMessage parse rid operation toolName toolArguments resourceUri customMessage with
  | .error e => (.error e, [])
  | .ok _ => (.ok { success := true, response := "HTTP MCP not fully implemented yet" }, [])

/-! ### Hub Monitor (`checkMemoryUsage`, `parseProcessList`, process monitor) -/

/-- JavaScript `Math.round`: round half away from zero upward, i.e.
`Math.round(x) = floor(x + 0.5)`. -/
def jsRound (x : ℚ) : ℤ := ⌊x + 1 / 2⌋

/-- The status classification expression of `checkMemoryUsage` (and of
`checkCpuUsage`): `usage > 90 ? critical : usage > 70 ? warning : ok`,
applied to the unrounded usage percentage. -/
def memStatus (usage : ℚ) : String :=
  if usage > 90 then "critical" else if usage > 70 then "warning" else "ok"

/-- The record returned by `checkMemoryUsage`: formatted sizes, the
rounded usage percentage, and the status string. -/
structure MemRecord where
  total : String
  used : String
  free : String
  usage : ℤ
  status : String
deriving Repr, DecidableEq

/-- `checkMemoryUsage`, transcribed from the source, as a function of
the heap sizes read from `process.memoryUsage()` (in bytes, embedded
as rationals).  The `usage` field is `Math.round` of the percentage
while `status` is classified from the unrounded percentage. -/
def checkMemoryUsage (heapUsed heapTotal : ℚ) : MemRecord :=
  let freeMem := heapTotal - heapUsed
  let usage := heapUsed / heapTotal * 100
  { total := toString (jsRound (heapTotal / 1024 / 1024)) ++ "MB"
    used := toString (jsRound (heapUsed / 1024 / 1024)) ++ "MB"
    free := toString (jsRound (freeMem / 1024 / 1024)) ++ "MB"
    usage := jsRound usage
    status := memStatus usage }

/-- One entry of the `parseProcessList` result. -/
structure ProcEntry where
  name : String
  pid : String
deriving Repr, DecidableEq

/-- Per-line field extraction of `parseProcessList`.  Windows: split
the CSV line on commas, strip double quotes from the first two fields.
Unix: split the trimmed line on whitespace runs and, when it has more
than ten fields, take field 1 as the pid and the space-joined fields
from index 10 on as the process name.  A line that does not parse
yields an empty name (which the caller drops). -/
def parseLine (isWindows : Bool) (line : String) : String × String :=
  if isWindows then
    let parts := splitOnPred (fun c => c = ',') line
    if parts.length > 1 then
      (dropChar '"' (parts.getD 0 ""), dropChar '"' (parts.getD 1 ""))
    else ("", "")
  else
    let parts := (splitOnPred Char.isWhitespace (jsTrim line)).filter (fun s => s ≠ "")
    if parts.length > 10 then
      (joinWith " " (parts.drop 10), parts.getD 1 "")
    else ("", "")

/-- `parseProcessList`, transcribed from the source.  `test` stands for
the external case-insensitive regular-expression membership test
`new RegExp(pattern, i).test`; as in the source, no filter is applied
when the pattern is the empty string.  Blank lines and lines with an
empty parsed name are skipped; otherwise the entry is kept exactly
when there is no filter or the name passes the test. -/
def parseProcessList (output pattern : String) (test : String → Bool)
    (isWindows : Bool) : List ProcEntry :=
  let regex : Option (String → Bool) := if pattern = "" then none else some test
  (splitOnPred (fun c => c = '\n') output).filterMap (fun line =>
    if jsTrim line = "" then none
    else
      let parsed := parseLine isWindows line
      if parsed.1 = "" then none
      else
        match regex with
        | none => some { name := parsed.1, pid := parsed.2 }
        | some t => if t parsed.1 then some { name := parsed.1, pid := parsed.2 } else none)

/-- Result shape resolved by `executeProcessMonitor`. -/
structure ProcMonitorResult where
  processes : List ProcEntry
  pattern : String
  count : Nat
deriving Repr, DecidableEq

/-- The `close` handler of `executeProcessMonitor`, transcribed from
the source: a non-zero exit code of the listing command rejects with
`Failed to get process list`; otherwise the output is parsed against
the pattern and the promise resolves with the entries and their
count. -/
def processMonitorOnClose (code : Int) (output pattern : String)
    (test : String → Bool) (isWindows : Bool) : Settled ProcMonitorResult :=
  if code ≠ 0 then .rejected "Failed to get process list"
  else
    let processes := parseProcessList output pattern test isWindows
    .resolved { processes := processes, pattern := pattern, count := processes.length }

/-! ### The shared per-item execute loop and the Web Browse Agent -/

/-- The per-item loop body shared verbatim by `WebBrowseAgent.execute`,
`HubMonitor.execute`, `LMStudioAgent.execute`, `TerminalAgent.execute`
and `MCPConnector.execute`: each item either produces a result record
(shaped by `succ`) or throws; a thrown error is converted by the catch
block into an error record (shaped by `errRec`) when `continueOnFail`
is set, and otherwise aborts the whole batch by rethrowing.  The
per-item outcome (the operation dispatch plus the awaited external
call) is abstracted as an `Except` value. -/
def runItems {A B : Type} (continueOnFail : Bool) (succ : A → B) (errRec : String → B) :
    List (Except String A) → Except String (List B)
  | [] => .ok []
  | r :: rest =>
      match r with
      | .ok v => (runItems continueOnFail succ errRec rest).map (fun tail => succ v :: tail)
      | .error e =>
          if continueOnFail then
            (runItems continueOnFail succ errRec rest).map (fun tail => errRec e :: tail)
          else .error e

/-- The output record an item outcome is mapped to by the loop. -/
def itemShape {A B : Type} (succ : A → B) (errRec : String → B) : Except String A → B
  | .ok v => succ v
  | .error e => errRec e

/-- `WebBrowseAgent.execute`, transcribed from the source: launch the
browser (outside any catch, so a launch failure propagates with no
browser to clean up), run the page setup (`newPage`, viewport, user
agent), then the shared per-item loop; the `finally` block closes the
browser whenever it is non-null, on the normal path and on every throw
path alike.  The second component of the result records whether the
browser was closed. -/
def webExecute {A B : Type} (continueOnFail : Bool)
    (launch : Except String Unit) (setup : Except String Unit)
    (succ : A → B) (errRec : String → B)
    (items : List (Except String A)) : Except String (List B) × Bool :=
  match launch with
  | .error e => (.error e, false)
  | .ok _ =>
      match setup with
      | .error e => (.error e, true)
      | .ok _ => (runItems continueOnFail succ errRec items, true)

/-! ### Helper lemmas: Promise settlement is final -/

/-- Once an `executeRemoteCommand` promise is settled, no later SSH
event changes the settlement. -/
theorem sshStep_preserves_settled (T : Nat) (st : SshState) (e : SshEvent)
    (o : Settled CommandResult) (h : st.settled = some o) :
    (sshStep T st e).settled = some o := by
  cases e with
  | timerFire => simp only [sshStep]; split_ifs <;> simp [settle, h]
  | ready => simpa [sshStep] using h
  | connError m => simp [sshStep, settle, h]
  | execCallback err => cases err <;> simp [sshStep, settle, h]
  | streamOut s => simpa [sshStep] using h
  | streamErr s => simpa [sshStep] using h
  | streamClose c => simp [sshStep, settle, h]

/-- Once an `executeRemoteCommand` promise is settled, it stays settled
with the same outcome across any further event trace. -/
theorem sshFoldl_preserves_settled (T : Nat) (evts : List SshEvent) (st : SshState)
    (o : Settled CommandResult) (h : st.settled = some o) :
    (evts.foldl (sshStep T) st).settled = some o := by
  induction evts generalizing st with
  | nil => exact h
  | cons e es ih => exact ih _ (sshStep_preserves_settled T st e o h)

/-- Once an `executeWebSocketOperation` promise is settled, no later
WebSocket event changes the settlement. -/
theorem wsStep_preserves_settled (T : Nat) (build : Except String String)
    (parse : String → Except String String) (st : WsState) (e : WsEvent)
    (o : Settled MCPOpResult) (h : st.settled = some o) :
    (wsStep T build parse st e).settled = some o := by
  cases e with
  | timerFire => simp only [wsStep]; split_ifs <;> simp [settle, h]
  | opened => cases build <;> simp [wsStep, settle, h]
  | message d => cases hp : parse d <;> simp [wsStep, hp, settle, h]
  | wsError m => simp [wsStep, settle, h]
  | closeEvt => simp only [wsStep]; split_ifs <;> simp [settle, h]

/-- Once an `executeWebSocketOperation` promise is settled, it stays
settled with the same outcome across any further event trace. -/
theorem wsFoldl_preserves_settled (T : Nat) (build : Except String String)
    (parse : String → Except String String) (evts : List WsEvent) (st : WsState)
    (o : Settled MCPOpResult) (h : st.settled = some o) :
    (evts.foldl (wsStep T build parse) st).settled = some o := by
  induction evts generalizing st with
  | nil => exact h
  | cons e es ih => exact ih _ (wsStep_preserves_settled T build parse st e o h)

/-! ### Claims -/

/-- C2: for every node and every input batch, when the continue-on-failure
flag is enabled the per-item loop never aborts: it returns the success
record for each succeeding item and the error record for each failing
item, in order, so the output collection has exactly one entry per
input item. -/
theorem C2_continue_on_fail {A B : Type} (succ : A → B) (errRec : String → B)
    (xs : List (Except String A)) :
    runItems true succ errRec xs = .ok (xs.map (itemShape succ errRec))
    ∧ (xs.map (itemShape succ errRec)).length = xs.length := by
  refine ⟨?_, by simp⟩
  induction xs with
  | nil => rfl
  | cons r rest ih => cases r <;> simp [runItems, itemShape, ih, Except.map]

/-- C3: the Hub Monitor memory-usage classification returns ok for
usage at most 70, warning for usage strictly between 70 and 90
inclusive, and critical above 90; in particular the boundary values
70, 70.1, 90 and 90.1 classify as ok, warning, warning and critical
respectively. -/
theorem C3_memory_classification :
    (∀ u : ℚ, u ≤ 70 → memStatus u = "ok")
    ∧ (∀ u : ℚ, 70 < u → u ≤ 90 → memStatus u = "warning")
    ∧ (∀ u : ℚ, 90 < u → memStatus u = "critical")
    ∧ memStatus 70 = "ok" ∧ memStatus (701 / 10) = "warning"
    ∧ memStatus 90 = "warning" ∧ memStatus (901 / 10) = "critical" := by
  refine ⟨fun u h => ?_, fun u h1 h2 => ?_, fun u h => ?_, ?_, ?_, ?_, ?_⟩
  · rw [memStatus, if_neg (by push_neg; linarith), if_neg (by push_neg; linarith)]
  · rw [memStatus, if_neg (by push_neg; linarith), if_pos (by exact h1)]
  · rw [memStatus, if_pos (by exact h)]
  all_goals norm_num [memStatus]

/-- Witness for C3 at usage values 60, 80 and 95. -/
theorem C3_memory_classification_witness :
    memStatus 60 = "ok" ∧ memStatus 80 = "warning" ∧ memStatus 95 = "critical" :=
  ⟨C3_memory_classification.1 60 (by norm_num),
   C3_memory_classification.2.1 80 (by norm_num) (by norm_num),
   C3_memory_classification.2.2.1 95 (by norm_num)⟩

/-- C4: whenever the spawned local command completes (the process emits
close after any interleaving of stdout and stderr data), the operation
resolves with the exit code, the trimmed stdout, the trimmed stderr,
and a success flag equal to (exit code == 0). -/
theorem C4_local_close (pre : List LocalEvent) (code : Int)
    (h : (localRun pre).settled = none) :
    (localRun (pre ++ [LocalEvent.close code])).settled
      = some (.resolved
          { exitCode := code
            stdout := jsTrim (localRun pre).stdout
            stderr := jsTrim (localRun pre).stderr
            success := code == 0 }) := by
  rw [localRun, List.foldl_append]
  simp [localRun] at h
  simp [localRun, localStep, settle, h]

/-- Witness for C4: a command printing " hello " on stdout and "oops"
on stderr, then exiting with code 0. -/
theorem C4_local_close_witness :
    (localRun ([LocalEvent.out " hello ", LocalEvent.errOut "oops"]
        ++ [LocalEvent.close 0])).settled
      = some (.resolved
          { exitCode := 0
            stdout := jsTrim (localRun [LocalEvent.out " hello ", LocalEvent.errOut "oops"]).stdout
            stderr := jsTrim (localRun [LocalEvent.out " hello ", LocalEvent.errOut "oops"]).stderr
            success := (0 : Int) == 0 }) :=
  C4_local_close [LocalEvent.out " hello ", LocalEvent.errOut "oops"] 0 (by decide)

/-- C5 counterexample: the claim says a non-zero exit code is never by
itself raised as an operation error across all adapters, but the Hub
Monitor process monitor rejects with an operation error as soon as the
listing command exits with code 1, even with well-formed output. -/
theorem C5_counterexample :
    processMonitorOnClose 1 "root 1 0.0 0.0 1 2 ? S 0:00 0:00 node app.js" "node"
      (fun s => s.data.take 4 == "node".data) false
      = .rejected "Failed to get process list" := by decide

/-- C5 amended: in the Terminal Agent local and SSH paths a non-zero
exit code is not an error (close always resolves, with success false),
and process- or connection-level failures reject with a descriptive
cause message; but the Hub Monitor process monitor rejects whenever
the listing command exits non-zero. -/
theorem C5_amended (st : LocalState) (sst : SshState) (T : Nat) (code : Int)
    (out pat m : String) (test : String → Bool) (w : Bool)
    (h1 : st.settled = none) (h2 : sst.settled = none) (h3 : code ≠ 0) :
    (localStep st (.close code)).settled
      = some (.resolved
          { exitCode := code, stdout := jsTrim st.stdout
            stderr := jsTrim st.stderr, success := false })
    ∧ (sshStep T sst (.streamClose code)).settled
      = some (.resolved
          { exitCode := code, stdout := jsTrim sst.stdout
            stderr := jsTrim sst.stderr, success := false })
    ∧ processMonitorOnClose code out pat test w = .rejected "Failed to get process list"
    ∧ (localStep st (.procError m)).settled
      = some (.rejected ("Command execution failed: " ++ m))
    ∧ (sshStep T sst (.connError m)).settled
      = some (.rejected ("SSH connection failed: " ++ m)) := by
  have hb : (code == 0) = false := beq_eq_false_iff_ne.mpr h3
  exact ⟨by simp [localStep, settle, h1, hb],
         by simp [sshStep, settle, h2, hb],
         by simp [processMonitorOnClose, h3],
         by simp [localStep, settle, h1],
         by simp [sshStep, settle, h2]⟩

/-- Witness for C5 amended at exit code 1 from the initial states. -/
theorem C5_amended_witness :
    (localStep localInit (.close 1)).settled
      = some (.resolved
          { exitCode := 1, stdout := jsTrim localInit.stdout
            stderr := jsTrim localInit.stderr, success := false })
    ∧ (sshStep 30 sshInit (.streamClose 1)).settled
      = some (.resolved
          { exitCode := 1, stdout := jsTrim sshInit.stdout
            stderr := jsTrim sshInit.stderr, success := false })
    ∧ processMonitorOnClose 1 "" "" (fun _ => true) false
      = .rejected "Failed to get process list"
    ∧ (localStep localInit (.procError "spawn failed")).settled
      = some (.rejected ("Command execution failed: " ++ "spawn failed"))
    ∧ (sshStep 30 sshInit (.connError "spawn failed")).settled
      = some (.rejected ("SSH connection failed: " ++ "spawn failed")) :=
  C5_amended localInit sshInit 30 1 "" "" "spawn failed" (fun _ => true) false
    (by decide) (by decide) (by decide)

/-- C6: a WebSocket call whose connection closes before any message has
been received, while the promise is still pending, rejects with the
unexpected-close error. -/
theorem C6_ws_unexpected_close (T : Nat) (build : Except String String)
    (parse : String → Except String String) (st : WsState)
    (hset : st.settled = none) (hrr : st.responseReceived = false) :
    (wsStep T build parse st WsEvent.closeEvt).settled = some (.rejected wsCloseMsg) := by
  simp [wsStep, hrr, settle, hset]

/-- Witness for C6: the close event arriving first, right after the
connection attempt. -/
theorem C6_ws_unexpected_close_witness :
    (wsStep 30 (.ok "msg") (fun s => .ok s) wsInit WsEvent.closeEvt).settled
      = some (.rejected wsCloseMsg) :=
  C6_ws_unexpected_close 30 (.ok "msg") (fun s => .ok s) wsInit rfl rfl

/-- C7: with a non-empty pattern, every entry returned by
parseProcessList has a name accepted by the pattern membership test
(the case-insensitive regular expression built from the pattern). -/
theorem C7_process_filter (output pattern : String) (test : String → Bool)
    (w : Bool) (h : pattern ≠ "") :
    (parseProcessList output pattern test w).all (fun e => test e.name) = true := by
  unfold parseProcessList
  rw [if_neg h, List.all_eq_true]
  intro e he
  rcases List.mem_filterMap.mp he with ⟨line, -, hf⟩
  by_cases hb : jsTrim line = ""
  · simp [hb] at hf
  · rw [if_neg hb] at hf
    by_cases hn : (parseLine w line).1 = ""
    · simp [hn] at hf
    · rw [if_neg hn] at hf
      by_cases ht : test (parseLine w line).1
      · simp only [ht, if_true, Option.some.injEq] at hf
        subst hf
        simpa using ht
      · simp [ht] at hf

/-- Witness for C7 on a Unix ps aux listing with pattern node. -/
theorem C7_process_filter_witness :
    (parseProcessList
        ("root 123 0.0 0.1 111 222 ? S 10:00 0:00 node server.js"
          ++ "\n" ++ "root 99 0.0 0.1 1 2 ? S 1:00 0:00 bash")
        "node" (fun s => s.data.take 4 == "node".data) false).all
      (fun e => (fun s => s.data.take 4 == "node".data) e.name) = true :=
  C7_process_filter
    ("root 123 0.0 0.1 111 222 ? S 10:00 0:00 node server.js"
      ++ "\n" ++ "root 99 0.0 0.1 1 2 ? S 1:00 0:00 bash")
    "node" (fun s => s.data.take 4 == "node".data) false (by decide)

/-- C8: whenever the browser was successfully launched, the Web Browse
Agent closes it at the end of the batch on every path: when the page
setup fails, when all items complete, and when an item failure aborts
the batch. -/
theorem C8_browser_cleanup {A B : Type} (continueOnFail : Bool)
    (launch setup : Except String Unit) (succ : A → B) (errRec : String → B)
    (items : List (Except String A)) (h : launch = .ok ()) :
    (webExecute continueOnFail launch setup succ errRec items).2 = true := by
  subst h
  cases setup <;> simp [webExecute]

/-- Witness for C8 on the abort path: continue-on-failure disabled and
a failing first item still end with the browser closed. -/
theorem C8_browser_cleanup_witness :
    (webExecute false (.ok ()) (.ok ()) (fun _ : Unit => ()) (fun _ => ())
        [.error "Navigation failed: net::ERR_NAME_NOT_RESOLVED"]).2 = true :=
  C8_browser_cleanup false (.ok ()) (.ok ()) (fun _ : Unit => ()) (fun _ => ())
    [.error "Navigation failed: net::ERR_NAME_NOT_RESOLVED"] rfl

/-- C9: whenever message building succeeds, the MCP Connector HTTP
transport path performs no network request and returns the fixed
placeholder success response, regardless of the server URL and the
operation. -/
theorem C9_http_stub (parse : String → Except String String) (rid : String)
    (serverUrl operation toolName toolArguments resourceUri customMessage : String)
    (m : MCPMessage)
    (h : buildMCPMessage parse rid operation toolName toolArguments resourceUri customMessage
          = .ok m) :
    executeHttpOperation parse rid serverUrl operation toolName toolArguments resourceUri
        customMessage
      = (.ok { success := true, response := "HTTP MCP not fully implemented yet" }, []) := by
  unfold executeHttpOperation
  rw [h]

/-- Witness for C9: an initialize operation against an arbitrary URL. -/
theorem C9_http_stub_witness :
    executeHttpOperation (fun s => .ok s) "id7" "http://anything.example" "initialize"
        "" "" "" ""
      = (.ok { success := true, response := "HTTP MCP not fully implemented yet" }, []) :=
  C9_http_stub (fun s => .ok s) "id7" "http://anything.example" "initialize" "" "" "" ""
    (.rpc "2.0" "id7" "initialize" .initializeParams) rfl

/-- C10: the Hub Monitor memory check reports the rounded percentage in
the usage field but classifies the status from the unrounded
percentage, so for raw usage strictly between 70 and 70.5 the record
carries usage 70 together with status warning, while the
classification maps usage 70 to ok. -/
theorem C10_rounding_disagreement (heapUsed heapTotal : ℚ)
    (h1 : 70 < heapUsed / heapTotal * 100) (h2 : heapUsed / heapTotal * 100 < 141 / 2) :
    (checkMemoryUsage heapUsed heapTotal).usage = 70
    ∧ (checkMemoryUsage heapUsed heapTotal).status = "warning"
    ∧ memStatus (((checkMemoryUsage heapUsed heapTotal).usage : ℤ) : ℚ) = "ok" := by
  have hu : jsRound (heapUsed / heapTotal * 100) = 70 := by
    rw [jsRound, Int.floor_eq_iff]
    constructor
    · push_cast; linarith
    · push_cast; linarith
  refine ⟨?_, ?_, ?_⟩
  · simpa [checkMemoryUsage] using hu
  · simp only [checkMemoryUsage]
    rw [memStatus, if_neg (by push_neg; linarith), if_pos (by exact h1)]
  · have : (checkMemoryUsage heapUsed heapTotal).usage = 70 := by
      simpa [checkMemoryUsage] using hu
    rw [this]
    norm_num [memStatus]

/-- Witness for C10 at heapUsed 702 and heapTotal 1000 bytes, raw usage
70.2 percent. -/
theorem C10_rounding_disagreement_witness :
    (checkMemoryUsage 702 1000).usage = 70
    ∧ (checkMemoryUsage 702 1000).status = "warning"
    ∧ memStatus (((checkMemoryUsage 702 1000).usage : ℤ) : ℚ) = "ok" :=
  C10_rounding_disagreement 702 1000 (by norm_num) (by norm_num)

/-- C1 counterexample: with a 30 second timeout configured, the SSH
connection becomes ready (before the timer fires, which clears it) and
the remote command then never responds: the operation never settles,
and the disarmed timer can never settle it later, so the invocation
hangs with no timeout error — refuting both that an unresponsive SSH
command yields a timeout error and that the SSH timeout races the
whole external call as the WebSocket one does. -/
theorem C1_counterexample :
    (sshRun 30 [SshEvent.ready]).settled = none
    ∧ (sshRun 30 [SshEvent.ready]).timerActive = false
    ∧ (sshRun 30 [SshEvent.ready, SshEvent.timerFire, SshEvent.timerFire]).settled = none := by
  decide

/-- C1 amended: the timeout is a cancel-on-first-response race only in
the WebSocket path, where the timer firing before any message, error
or close settles the call with a timeout error whatever happens later;
in the SSH path the timer races only connection establishment (firing
first settles the call with the connection-timeout error whatever
happens later), and once the connection is ready the timer is
disarmed, so an exec that never responds leaves the invocation
pending. -/
theorem C1_amended (T : Nat) (rest : List SshEvent) (msg : String)
    (parse : String → Except String String) (wrest : List WsEvent) :
    (sshRun T (SshEvent.timerFire :: rest)).settled = some (.rejected (sshTimeoutMsg T))
    ∧ (sshRun T [SshEvent.ready]).settled = none
    ∧ (sshRun T [SshEvent.ready]).timerActive = false
    ∧ (wsRun T (.ok msg) parse (WsEvent.opened :: WsEvent.timerFire :: wrest)).settled
        = some (.rejected (wsTimeoutMsg T)) := by
  refine ⟨?_, rfl, rfl, ?_⟩
  · rw [sshRun, List.foldl_cons]
    exact sshFoldl_preserves_settled T rest _ _ (by simp [sshStep, sshInit, settle])
  · rw [wsRun, List.foldl_cons, List.foldl_cons]
    exact wsFoldl_preserves_settled T (.ok msg) parse wrest _ _
      (by simp [wsStep, wsInit, settle])

end IntelligenceHub
